import Mathlib

/-!
Shallow embedding of the pricing / rental data model of
`src/models.py` (Django models of a scooter-rental business), together
with proofs about the convenience accessors the models define:
`Rental.duration_days`, `Rental.is_overdue`,
`PricingTier.get_price_for_duration`,
`DeepSeekPromptTemplate.save` / `get_active_prompt` / `get_default_prompt`,
and `CustomerCommunications.get_recent_messages`.

Conventions of the embedding:
* Python `datetime` values are a calendar-day number (`Int`) plus a
  time-of-day in seconds (`Nat`); `.date()` keeps only the day, and
  `datetime` comparison is lexicographic on (day, time).
* `Decimal` money fields are integers (amounts in cents): the two
  decimal places of `DecimalField(decimal_places=2)` make every value
  an exact multiple of 0.01.  Nullable fields are `Option Int`.
  Python truthiness matters: both `None` and `Decimal(0)` are falsy,
  which `pyOr` captures.
* Methods that read `self` and assign nothing are embedded as pure
  functions; `..._call` variants return the (result, receiver) pair a
  method call produces, making freedom from mutation a statable fact.
* The Django table behind `DeepSeekPromptTemplate` is a `List` of rows
  in query order; `.update`, `.create` and `super().save()` are list
  transformations.
-/

namespace Farang

/-- A Python `datetime`: calendar day number plus time-of-day in seconds.
`DateTime.date` models `datetime.date()` truncation. -/
structure DateTime where
  day : Int
  sec : Nat
deriving DecidableEq, Repr

/-- `datetime.date()`: drop the time-of-day. -/
def DateTime.date (d : DateTime) : Int := d.day

/-- Python `<` on `datetime` values: lexicographic on (day, time-of-day). -/
def DateTime.pyLt (a b : DateTime) : Bool :=
  a.day < b.day || (a.day == b.day && a.sec < b.sec)

/-- Python `x or y` where `x : Optional[Decimal]`: `None` and the zero
`Decimal` are falsy, every other value is returned as-is. -/
def pyOr (x : Option Int) (y : Int) : Int :=
  match x with
  | none => y
  | some v => if v = 0 then y else v

/-- The fields of `Rental` (src/models.py:358) that its methods read:
`start_date`, `end_date` (planned), the nullable `actual_end_date`, and
the `status` enum stored as a string. -/
structure Rental where
  start_date : DateTime
  end_date : DateTime
  actual_end_date : Option DateTime
  status : String
deriving DecidableEq, Repr

/-- Models `end = self.actual_end_date or self.end_date` in
`duration_days`: a `datetime` object is always truthy, so the `or`
only skips `None`. -/
def Rental.effective_end (r : Rental) : DateTime :=
  match r.actual_end_date with
  | some e => e
  | none => r.end_date

/-- `Rental.duration_days` (src/models.py:466):
`(end.date() - self.start_date.date()).days + 1`. -/
def Rental.duration_days (r : Rental) : Int :=
  (r.effective_end.date - r.start_date.date) + 1

/-- `Rental.is_overdue` (src/models.py:471): returns `True` when the
status is `'active'` and the planned `end_date` is before `now`,
otherwise `False`. -/
def Rental.is_overdue (r : Rental) (now : DateTime) : Bool :=
  if r.status == "active" && DateTime.pyLt r.end_date now then true
  else false

/-- A call of `duration_days` as the (result, receiver-after) pair: the
method body only reads `self`, so the receiver comes back unchanged. -/
def Rental.duration_days_call (r : Rental) : Int × Rental :=
  (r.duration_days, r)

/-- A call of `is_overdue` as the (result, receiver-after) pair. -/
def Rental.is_overdue_call (r : Rental) (now : DateTime) : Bool × Rental :=
  (r.is_overdue now, r)

/-- The price fields of `PricingTier` (src/models.py:478): a mandatory
`base_price` and nullable overrides for the duration bands, the
long-term periods and the months/seasons. -/
structure PricingTier where
  base_price : Int
  one_year_rent : Option Int
  six_month_high_season : Option Int
  six_month_low_season : Option Int
  days_1_3 : Option Int
  days_4_7 : Option Int
  days_7_14 : Option Int
  days_15_25 : Option Int
  december_price : Option Int
  january_price : Option Int
  february_price : Option Int
  march_price : Option Int
  april_price : Option Int
  may_price : Option Int
  summer_price : Option Int
  september_price : Option Int
  october_price : Option Int
  november_price : Option Int
  is_active : Bool
deriving DecidableEq, Repr

/-- `PricingTier.get_price_for_duration` (src/models.py:708): the chain
of `days <= 3 / 7 / 14 / 25` conditionals, each returning
`override or base_price` with Python truthiness. -/
def PricingTier.get_price_for_duration (t : PricingTier) (days : Int) : Int :=
  if days ≤ 3 then pyOr t.days_1_3 t.base_price
  else if days ≤ 7 then pyOr t.days_4_7 t.base_price
  else if days ≤ 14 then pyOr t.days_7_14 t.base_price
  else if days ≤ 25 then pyOr t.days_15_25 t.base_price
  else t.base_price

/-- A call of `get_price_for_duration` as the (result, receiver-after)
pair: the method body only reads `self`. -/
def PricingTier.get_price_for_duration_call (t : PricingTier) (days : Int) :
    Int × PricingTier :=
  (t.get_price_for_duration days, t)

/-- A tier with every override unset: only the base price is given. -/
def tierOfBase (b : Int) : PricingTier :=
  ⟨b, none, none, none, none, none, none, none, none, none, none, none,
   none, none, none, none, none, none, true⟩

/-- The duration-band override the spec text assigns to a duration:
`days_1_3` on [1,3], `days_4_7` on [4,7], `days_7_14` on [8,14],
`days_15_25` on [15,25], nothing elsewhere. -/
def specBandOverride (t : PricingTier) (d : Int) : Option Int :=
  if 1 ≤ d ∧ d ≤ 3 then t.days_1_3
  else if 4 ≤ d ∧ d ≤ 7 then t.days_4_7
  else if 8 ≤ d ∧ d ≤ 14 then t.days_7_14
  else if 15 ≤ d ∧ d ≤ 25 then t.days_15_25
  else none

/-- A tier with every optional price set to a nonzero value. -/
def tierAllSet : PricingTier :=
  ⟨10000, some 500000, some 300000, some 200000, some 9000, some 8000,
   some 7000, some 6000, some 1, some 2, some 3, some 4, some 5, some 6,
   some 7, some 8, some 9, some 10, true⟩

theorem get_price_eq_pyOr_band (t : PricingTier) (d : Int)
    (h1 : 1 ≤ d) (h2 : d ≤ 25) :
    t.get_price_for_duration d = pyOr (specBandOverride t d) t.base_price := by
  unfold PricingTier.get_price_for_duration specBandOverride
  split_ifs <;> first | rfl | omega

/-- C1 (amended): for durations 1 ≤ d ≤ 25 the resolver returns the
override of d's band whenever that override is non-null AND non-zero,
and returns `base_price` whenever the override is null OR zero (Python
`or` treats a zero `Decimal` as falsy). -/
theorem get_price_resolves_nonzero_band_overrides (t : PricingTier) (d : Int)
    (h1 : 1 ≤ d) (h2 : d ≤ 25) :
    (∀ v : Int, specBandOverride t d = some v → v ≠ 0 →
        t.get_price_for_duration d = v)
  ∧ ((specBandOverride t d = none ∨ specBandOverride t d = some 0) →
        t.get_price_for_duration d = t.base_price) := by
  rw [get_price_eq_pyOr_band t d h1 h2]
  constructor
  · intro v hv hvne
    rw [hv]
    simp [pyOr, hvne]
  · rintro (h | h) <;> rw [h] <;> simp [pyOr]

/-- C1 witness: a 5-day rental on a tier whose 4-7-day override is 8000
resolves to 8000. -/
theorem get_price_resolves_nonzero_band_overrides_witness :
    ((1 : Int) ≤ 5 ∧ (5 : Int) ≤ 25)
  ∧ tierAllSet.get_price_for_duration 5 = 8000 :=
  ⟨by decide,
   (get_price_resolves_nonzero_band_overrides tierAllSet 5 (by decide)
     (by decide)).1 8000 (by decide) (by decide)⟩

/-- C1 counterexample: a tier whose `days_1_3` override is the zero
`Decimal` (non-null!) resolves a 2-day rental to the base price 10000,
not to the override value 0 — Python `x or y` falls through on zero. -/
theorem get_price_zero_override_counterexample :
    ({ tierOfBase 10000 with days_1_3 := some 0 } : PricingTier).days_1_3
        = some 0
  ∧ ({ tierOfBase 10000 with days_1_3 := some 0 }
        : PricingTier).get_price_for_duration 2 = 10000
  ∧ (10000 : Int) ≠ 0 := by
  refine ⟨rfl, by decide, by decide⟩

/-- C2: for every duration strictly above 25 the resolver returns the
base price, whatever overrides are set. -/
theorem get_price_above_25_is_base (t : PricingTier) (d : Int)
    (h : 25 < d) :
    t.get_price_for_duration d = t.base_price := by
  unfold PricingTier.get_price_for_duration
  split_ifs <;> first | rfl | omega

/-- C2 witness: at 26 days, a tier with every override (long-term and
seasonal included) set still resolves to its base price. -/
theorem get_price_above_25_is_base_witness :
    (25 : Int) < 26
  ∧ tierAllSet.get_price_for_duration 26 = tierAllSet.base_price :=
  ⟨by decide, get_price_above_25_is_base tierAllSet 26 (by decide)⟩

/-- A rental standing in for start 2024-01-01 (with a time-of-day),
planned end 2024-01-03, not yet returned; day numbers are proleptic
Gregorian ordinals. -/
def rentalJan1Jan3 : Rental :=
  { start_date := ⟨738886, 30000⟩
    end_date := ⟨738888, 0⟩
    actual_end_date := none
    status := "active" }

/-- C3: when the start date is not after the effective end date,
`duration_days` is the inclusive day count
`(end.date() - start.date()) + 1` (time-of-day plays no part in the
formula), hence ≥ 1, and 1 exactly when the two dates coincide; the
effective end is `actual_end_date` when non-null, else `end_date`. -/
theorem duration_days_inclusive_count (r : Rental)
    (h : r.start_date.date ≤ r.effective_end.date) :
    r.duration_days = (r.effective_end.date - r.start_date.date) + 1
  ∧ 1 ≤ r.duration_days
  ∧ (r.start_date.date = r.effective_end.date → r.duration_days = 1)
  ∧ (∀ e, r.actual_end_date = some e → r.effective_end = e)
  ∧ (r.actual_end_date = none → r.effective_end = r.end_date) := by
  refine ⟨rfl, ?_, ?_, ?_, ?_⟩
  · unfold Rental.duration_days
    omega
  · intro he
    unfold Rental.duration_days
    omega
  · intro e he
    unfold Rental.effective_end
    rw [he]
  · intro he
    unfold Rental.effective_end
    rw [he]

/-- C3 witness: the rental 2024-01-01 → 2024-01-03 lasts 3 days, and
that agrees with the inclusive formula. -/
theorem duration_days_inclusive_count_witness :
    rentalJan1Jan3.start_date.date ≤ rentalJan1Jan3.effective_end.date
  ∧ rentalJan1Jan3.duration_days = 3
  ∧ rentalJan1Jan3.duration_days
      = (rentalJan1Jan3.effective_end.date
          - rentalJan1Jan3.start_date.date) + 1 :=
  ⟨by decide, by decide,
   (duration_days_inclusive_count rentalJan1Jan3 (by decide)).1⟩

/-- A rental whose start date lies two days after its planned end,
never returned. -/
def rentalInverted : Rental :=
  { start_date := ⟨738890, 0⟩
    end_date := ⟨738888, 0⟩
    actual_end_date := none
    status := "active" }

/-- C4 counterexample: on a rental starting after its effective end,
`duration_days` silently returns the negative value -1; the method is a
total function with no raise statement, so no `InvalidRangeError` (or
any error) reaches the caller. -/
theorem duration_days_negative_counterexample :
    rentalInverted.effective_end.date < rentalInverted.start_date.date
  ∧ rentalInverted.duration_days = -1 := by
  refine ⟨by decide, by decide⟩

/-- C4 (amended): when the start date is strictly after the effective
end date, `duration_days` reports no failure and instead returns the
same inclusive formula value, which is ≤ 0. -/
theorem duration_days_inverted_nonpositive (r : Rental)
    (h : r.effective_end.date < r.start_date.date) :
    r.duration_days = (r.effective_end.date - r.start_date.date) + 1
  ∧ r.duration_days ≤ 0 := by
  refine ⟨rfl, ?_⟩
  unfold Rental.duration_days
  omega

/-- C4 witness: the inverted rental above has duration ≤ 0. -/
theorem duration_days_inverted_nonpositive_witness :
    rentalInverted.effective_end.date < rentalInverted.start_date.date
  ∧ rentalInverted.duration_days ≤ 0 :=
  ⟨by decide,
   (duration_days_inverted_nonpositive rentalInverted (by decide)).2⟩

/-- C5: `is_overdue` returns true exactly when the status is "active"
and the planned end date is strictly before the evaluation time (full
timestamp order), and the call leaves the rental unchanged. -/
theorem is_overdue_characterization (r : Rental) (now : DateTime) :
    (r.is_overdue now = true ↔
       r.status = "active"
     ∧ (r.end_date.day < now.day
        ∨ (r.end_date.day = now.day ∧ r.end_date.sec < now.sec)))
  ∧ (r.is_overdue_call now).2 = r := by
  refine ⟨?_, rfl⟩
  unfold Rental.is_overdue DateTime.pyLt
  cases hb : (r.status == "active"
      && (r.end_date.day < now.day
          || (r.end_date.day == now.day && r.end_date.sec < now.sec))) <;>
    simp_all

/-- C7: the resolver methods are deterministic and mutation-free: each
call returns the receiver unchanged, and a second call on the returned
receiver yields the same result. -/
theorem resolver_calls_deterministic_and_pure (t : PricingTier) (d : Int)
    (r : Rental) :
    ((t.get_price_for_duration_call d).2.get_price_for_duration_call d).1
        = (t.get_price_for_duration_call d).1
  ∧ (t.get_price_for_duration_call d).2 = t
  ∧ (r.duration_days_call.2.duration_days_call).1 = r.duration_days_call.1
  ∧ r.duration_days_call.2 = r :=
  ⟨rfl, rfl, rfl, rfl⟩

/-- C8: the resolver is total over all integer durations (it always
returns some price), and every duration ≤ 3 — zero and negative values
included — is resolved through the 1-3-day band. -/
theorem get_price_total_low_band (t : PricingTier) (d : Int) :
    (∃ p : Int, t.get_price_for_duration d = p)
  ∧ (d ≤ 3 → t.get_price_for_duration d = pyOr t.days_1_3 t.base_price) := by
  refine ⟨⟨t.get_price_for_duration d, rfl⟩, fun h => ?_⟩
  unfold PricingTier.get_price_for_duration
  rw [if_pos h]

/-- C8 witness: a duration of -5 days goes through the 1-3-day band. -/
theorem get_price_total_low_band_witness :
    ((-5 : Int) ≤ 3)
  ∧ tierAllSet.get_price_for_duration (-5)
      = pyOr tierAllSet.days_1_3 tierAllSet.base_price :=
  ⟨by decide, (get_price_total_low_band tierAllSet (-5)).2 (by decide)⟩

/-- The fields of `DeepSeekPromptTemplate` (src/models.py:1422), with
the primary key made explicit. -/
structure PromptTemplate where
  pk : Nat
  name : String
  description : String
  system_prompt : String
  is_active : Bool
deriving DecidableEq, Repr

/-- `DeepSeekPromptTemplate.objects.exclude(pk=self.pk).update(is_active=False)`
(src/models.py:1470): set `is_active=False` on every row whose pk
differs. -/
def deactivate_others (p : Nat) (db : List PromptTemplate) :
    List PromptTemplate :=
  db.map (fun r => if r.pk = p then r else { r with is_active := false })

/-- How many rows of the table carry the given pk. -/
def pkCount (p : Nat) : List PromptTemplate → Nat
  | [] => 0
  | r :: rest => (if r.pk = p then 1 else 0) + pkCount p rest

/-- The table keys are pairwise distinct (the database enforces primary
key uniqueness). -/
def pksDistinct : List PromptTemplate → Bool
  | [] => true
  | r :: rest => (pkCount r.pk rest == 0) && pksDistinct rest

/-- Django `super().save()`: UPDATE the row with this pk when one
exists, otherwise INSERT the row. -/
def base_save (t : PromptTemplate) (db : List PromptTemplate) :
    List PromptTemplate :=
  if pkCount t.pk db = 0 then db ++ [t]
  else db.map (fun r => if r.pk = t.pk then t else r)

/-- `DeepSeekPromptTemplate.save` (src/models.py:1467): when the saved
row is active, first deactivate every other row, then perform the
ordinary save. -/
def save (t : PromptTemplate) (db : List PromptTemplate) :
    List PromptTemplate :=
  base_save t (if t.is_active then deactivate_others t.pk db else db)

/-- How many rows of the table are active. -/
def activeCount : List PromptTemplate → Nat
  | [] => 0
  | r :: rest => (if r.is_active then 1 else 0) + activeCount rest

/-- `DeepSeekPromptTemplate.get_active_prompt` (src/models.py:1473):
the first active row in query order, if any. -/
def get_active_prompt (db : List PromptTemplate) : Option PromptTemplate :=
  db.find? (fun r => r.is_active)

/-- The row `get_default_prompt` creates when no active prompt exists
(src/models.py:1486), at a caller-chosen fresh pk. -/
def default_prompt_template (p : Nat) : PromptTemplate :=
  { pk := p
    name := "Стандартный промпт консультанта"
    description := "Базовый промпт для консультации по аренде скутеров"
    system_prompt := "Вы - профессиональный консультант по аренде мотоциклов и скутеров в Таиланде.\n\nВаши задачи:\n- Помогать клиентам выбрать подходящий скутер\n- Предоставлять точную информацию о ценах и условиях аренды\n- Учитывать историю общения с клиентом\n- Быть дружелюбным и профессиональным\n- Предлагать несколько вариантов скутеров, если они доступны\n\nОтвечайте на русском языке, используйте эмодзи для дружелюбности."
    is_active := true }

/-- `DeepSeekPromptTemplate.get_default_prompt` (src/models.py:1479):
return the active prompt when there is one; otherwise create the
default prompt (which runs the custom `save`) and return it. -/
def get_default_prompt (db : List PromptTemplate) (newPk : Nat) :
    PromptTemplate × List PromptTemplate :=
  match get_active_prompt db with
  | some t => (t, db)
  | none => (default_prompt_template newPk,
             save (default_prompt_template newPk) db)

theorem pkCount_deactivate (p q : Nat) (db : List PromptTemplate) :
    pkCount p (deactivate_others q db) = pkCount p db := by
  induction db with
  | nil => rfl
  | cons r rest ih =>
    simp only [deactivate_others, List.map_cons, pkCount] at ih ⊢
    by_cases hq : r.pk = q
    · simp [hq, ih]
    · simp [hq, ih]

theorem pkCount_le_one_of_distinct (p : Nat) (db : List PromptTemplate)
    (h : pksDistinct db = true) : pkCount p db ≤ 1 := by
  induction db with
  | nil => simp [pkCount]
  | cons r rest ih =>
    rw [pksDistinct, Bool.and_eq_true, beq_iff_eq] at h
    rw [pkCount]
    by_cases hp : r.pk = p
    · subst hp
      simp [h.1]
    · simp only [hp, if_false]
      have := ih h.2
      omega

theorem activeCount_append (xs ys : List PromptTemplate) :
    activeCount (xs ++ ys) = activeCount xs + activeCount ys := by
  induction xs with
  | nil => simp [activeCount]
  | cons r rest ih =>
    have h1 : activeCount (r :: (rest ++ ys))
        = (if r.is_active = true then 1 else 0) + activeCount (rest ++ ys) :=
      rfl
    have h2 : activeCount (r :: rest)
        = (if r.is_active = true then 1 else 0) + activeCount rest := rfl
    rw [List.cons_append, h1, h2, ih, Nat.add_assoc]

theorem activeCount_deactivate_zero (p : Nat) (db : List PromptTemplate)
    (h : pkCount p db = 0) : activeCount (deactivate_others p db) = 0 := by
  induction db with
  | nil => rfl
  | cons r rest ih =>
    rw [pkCount] at h
    by_cases hq : r.pk = p
    · simp [hq] at h
    · simp only [deactivate_others, List.map_cons, activeCount, hq, if_false]
      simp only [hq, if_false, Nat.zero_add] at h
      have := ih h
      simp only [deactivate_others] at this
      simp [this]

theorem activeCount_save_replace (t : PromptTemplate)
    (hact : t.is_active = true) (db : List PromptTemplate) :
    activeCount ((deactivate_others t.pk db).map
        (fun r => if r.pk = t.pk then t else r)) = pkCount t.pk db := by
  induction db with
  | nil => rfl
  | cons r rest ih =>
    simp only [deactivate_others, List.map_cons, activeCount, pkCount,
      List.map_map] at ih ⊢
    by_cases hq : r.pk = t.pk
    · simp [hq, hact, ih]
    · simp [hq, ih]

theorem activeCount_map_replace_le (t : PromptTemplate)
    (hin : t.is_active = false) (db : List PromptTemplate) :
    activeCount (db.map (fun r => if r.pk = t.pk then t else r))
      ≤ activeCount db := by
  induction db with
  | nil => simp
  | cons r rest ih =>
    simp only [List.map_cons, activeCount]
    by_cases hq : r.pk = t.pk
    · simp [hq, hin]
      omega
    · simp only [hq, if_false]
      omega

theorem mem_deactivate_others (p : Nat) (db : List PromptTemplate)
    (r : PromptTemplate) (h : r ∈ deactivate_others p db) :
    r.pk = p ∨ r.is_active = false := by
  unfold deactivate_others at h
  rcases List.mem_map.1 h with ⟨a, _, rfl⟩
  by_cases hq : a.pk = p
  · left
    simp [hq]
  · right
    simp [hq]

theorem save_active_others_inactive (t : PromptTemplate)
    (hact : t.is_active = true) (db : List PromptTemplate) :
    ∀ r ∈ save t db, r.pk ≠ t.pk → r.is_active = false := by
  intro r hr hne
  unfold save at hr
  rw [if_pos hact] at hr
  unfold base_save at hr
  split at hr
  · rcases List.mem_append.1 hr with h | h
    · rcases mem_deactivate_others t.pk db r h with h1 | h1
      · exact absurd h1 hne
      · exact h1
    · rw [List.mem_singleton] at h
      subst h
      exact absurd rfl hne
  · rcases List.mem_map.1 hr with ⟨a, ha, rfl⟩
    by_cases hq : a.pk = t.pk
    · simp only [hq, if_true] at hne
      exact absurd rfl hne
    · simp only [hq, if_false] at hne ⊢
      rcases mem_deactivate_others t.pk db a ha with h1 | h1
      · exact absurd h1 hq
      · exact h1

theorem filter_map_replace (t : PromptTemplate) (db : List PromptTemplate) :
    ((db.map (fun r => if r.pk = t.pk then t else r)).filter
        (fun r => r.pk != t.pk))
      = db.filter (fun r => r.pk != t.pk) := by
  induction db with
  | nil => rfl
  | cons r rest ih =>
    simp only [List.map_cons, List.filter_cons]
    by_cases hq : r.pk = t.pk
    · simp [hq, ih]
    · simp [hq, ih]

/-- C6: under sequential execution, `DeepSeekPromptTemplate.save`
preserves "at most one active row": an active save deactivates every
other row, an inactive save leaves the other rows untouched, and in
both cases at most one active row remains. -/
theorem prompt_save_single_active (t : PromptTemplate)
    (db : List PromptTemplate) (hnd : pksDistinct db = true) :
    (activeCount db ≤ 1 → activeCount (save t db) ≤ 1)
  ∧ (t.is_active = true →
       ∀ r ∈ save t db, r.pk ≠ t.pk → r.is_active = false)
  ∧ (t.is_active = false →
       (save t db).filter (fun r => r.pk != t.pk)
         = db.filter (fun r => r.pk != t.pk)) := by
  refine ⟨?_, fun hact => save_active_others_inactive t hact db, ?_⟩
  · intro hle
    unfold save base_save
    by_cases hact : t.is_active = true
    · rw [if_pos hact, pkCount_deactivate]
      by_cases h0 : pkCount t.pk db = 0
      · rw [if_pos h0, activeCount_append,
            activeCount_deactivate_zero t.pk db h0]
        simp [activeCount, hact]
      · rw [if_neg h0, activeCount_save_replace t hact db]
        exact pkCount_le_one_of_distinct t.pk db hnd
    · rw [if_neg hact]
      have hin : t.is_active = false := by
        simpa using hact
      by_cases h0 : pkCount t.pk db = 0
      · rw [if_pos h0, activeCount_append]
        simp [activeCount, hin]
        omega
      · rw [if_neg h0]
        exact le_trans (activeCount_map_replace_le t hin db) hle
  · intro hin
    unfold save
    rw [if_neg (by simp [hin])]
    unfold base_save
    by_cases h0 : pkCount t.pk db = 0
    · rw [if_pos h0, List.filter_append]
      simp
    · rw [if_neg h0]
      exact filter_map_replace t db

/-- A concrete table row that is active. -/
def promptA : PromptTemplate :=
  { pk := 1, name := "a", description := "", system_prompt := "",
    is_active := true }

/-- A concrete table row that is inactive. -/
def promptB : PromptTemplate :=
  { pk := 2, name := "b", description := "", system_prompt := "",
    is_active := false }

/-- A fresh active row about to be saved. -/
def promptNew : PromptTemplate :=
  { pk := 3, name := "c", description := "", system_prompt := "",
    is_active := true }

/-- A concrete two-row table with distinct pks and one active row. -/
def promptDb : List PromptTemplate := [promptA, promptB]

/-- C6 witness: saving a new active row into a two-row table keeps at
most one row active and deactivates the others. -/
theorem prompt_save_single_active_witness :
    pksDistinct promptDb = true
  ∧ ((activeCount promptDb ≤ 1 →
        activeCount (save promptNew promptDb) ≤ 1)
  ∧ (promptNew.is_active = true →
       ∀ r ∈ save promptNew promptDb, r.pk ≠ promptNew.pk →
         r.is_active = false)
  ∧ (promptNew.is_active = false →
       (save promptNew promptDb).filter (fun r => r.pk != promptNew.pk)
         = promptDb.filter (fun r => r.pk != promptNew.pk))) :=
  ⟨by decide, prompt_save_single_active promptNew promptDb (by decide)⟩

/-- C9: `get_default_prompt` always hands back an active template; when
an active row exists it is the first one and the table is untouched,
otherwise the standard consultant prompt is created (at a fresh pk this
adds exactly one row) and returned. -/
theorem get_default_prompt_active (db : List PromptTemplate) (newPk : Nat) :
    (get_default_prompt db newPk).1.is_active = true
  ∧ (∀ t, get_active_prompt db = some t →
        get_default_prompt db newPk = (t, db))
  ∧ (get_active_prompt db = none →
        (get_default_prompt db newPk).1 = default_prompt_template newPk
      ∧ (pkCount newPk db = 0 →
          (get_default_prompt db newPk).2.length = db.length + 1)) := by
  refine ⟨?_, ?_, fun h => ⟨?_, fun h0 => ?_⟩⟩
  · cases h : get_active_prompt db with
    | some t =>
      simp only [get_default_prompt, h]
      unfold get_active_prompt at h
      exact List.find?_some h
    | none =>
      simp [get_default_prompt, h, default_prompt_template]
  · intro t h
    simp [get_default_prompt, h]
  · simp [get_default_prompt, h]
  · simp only [get_default_prompt, h]
    have hc : (default_prompt_template newPk).is_active = true := rfl
    have hpk : (default_prompt_template newPk).pk = newPk := rfl
    unfold save base_save
    rw [if_pos hc, hpk, pkCount_deactivate, if_pos h0]
    simp [deactivate_others]

/-- A concrete one-row table with no active row. -/
def promptDbInactive : List PromptTemplate := [promptB]

/-- C9 witness: on a table with no active prompt, `get_default_prompt`
creates one active default row. -/
theorem get_default_prompt_active_witness :
    get_active_prompt promptDbInactive = none
  ∧ pkCount 7 promptDbInactive = 0
  ∧ (get_default_prompt promptDbInactive 7).1.is_active = true
  ∧ (get_default_prompt promptDbInactive 7).2.length
      = promptDbInactive.length + 1 :=
  ⟨by decide, by decide,
   (get_default_prompt_active promptDbInactive 7).1,
   ((get_default_prompt_active promptDbInactive 7).2.2 (by decide)).2
     (by decide)⟩

/-- Python `str.split` on a single newline separator, over the character
list: every newline opens a new segment, other characters extend the
current one; the empty text yields one empty segment. -/
def splitLinesChars : List Char → List (List Char)
  | [] => [[]]
  | c :: cs =>
    match splitLinesChars cs with
    | [] => [[c]]
    | h :: t => if c = '\n' then [] :: h :: t else (c :: h) :: t

/-- `self.chat_history.split('\n')` (src/models.py:1406). -/
def pySplitNewline (s : String) : List String :=
  (splitLinesChars s.data).map (fun cs => String.mk cs)

/-- The Python list slice `xs[a:]`: a negative start counts from the
end (clamped at 0), a non-negative one from the front (clamped at the
length). -/
def pySliceFrom (a : Int) (xs : List String) : List String :=
  if a < 0 then xs.drop (xs.length - (-a).toNat) else xs.drop a.toNat

/-- `CustomerCommunications.get_recent_messages` (src/models.py:1400):
empty history gives `[]`; otherwise the history is split on newlines
and the slice `messages[-limit:]` is returned (with the redundant
emptiness guard of the source kept). -/
def get_recent_messages (chat_history : String) (limit : Int) :
    List String :=
  if chat_history = "" then []
  else
    if (pySplitNewline chat_history).isEmpty then []
    else pySliceFrom (-limit) (pySplitNewline chat_history)

/-- A call of `get_recent_messages` as the (result, receiver-field)
pair: the method body only reads `self.chat_history`. -/
def get_recent_messages_call (chat_history : String) (limit : Int) :
    List String × String :=
  (get_recent_messages chat_history limit, chat_history)

/-- C10: for limit ≥ 1, `get_recent_messages` returns `[]` on an empty
history and otherwise the last min(limit, n) of the n newline-separated
lines, in order; it never returns more than limit messages and leaves
the history unchanged. -/
theorem get_recent_messages_spec (ch : String) (limit : Int)
    (h : 1 ≤ limit) :
    (ch = "" → get_recent_messages ch limit = [])
  ∧ (ch ≠ "" →
      get_recent_messages ch limit
        = (pySplitNewline ch).drop
            ((pySplitNewline ch).length - limit.toNat))
  ∧ (get_recent_messages ch limit).length ≤ limit.toNat
  ∧ (ch ≠ "" →
      (get_recent_messages ch limit).length
        = min limit.toNat (pySplitNewline ch).length)
  ∧ (get_recent_messages_call ch limit).2 = ch := by
  have hneg : -limit < 0 := by omega
  refine ⟨fun h0 => ?_, fun h0 => ?_, ?_, fun h0 => ?_, rfl⟩
  · simp [get_recent_messages, h0]
  · unfold get_recent_messages
    rw [if_neg h0]
    by_cases he : (pySplitNewline ch).isEmpty
    · rw [if_pos he]
      rw [List.isEmpty_iff] at he
      rw [he]
      simp
    · rw [if_neg he]
      unfold pySliceFrom
      rw [if_pos hneg, neg_neg]
  · unfold get_recent_messages
    split_ifs with h1 h2
    · simp
    · simp
    · unfold pySliceFrom
      rw [if_pos hneg, neg_neg, List.length_drop]
      omega
  · unfold get_recent_messages
    rw [if_neg h0]
    by_cases he : (pySplitNewline ch).isEmpty
    · rw [if_pos he]
      rw [List.isEmpty_iff] at he
      rw [he]
      simp
    · rw [if_neg he]
      unfold pySliceFrom
      rw [if_pos hneg, neg_neg, List.length_drop]
      omega

/-- A three-line chat history. -/
def chatSample : String := "a\nb\nc"

/-- The second chat line. -/
def lineB : String := "b"

/-- The third chat line. -/
def lineC : String := "c"

/-- C10 witness: asking for the last 2 of 3 lines returns the final
two lines, within the limit. -/
theorem get_recent_messages_spec_witness :
    (1 : Int) ≤ 2
  ∧ chatSample ≠ ""
  ∧ get_recent_messages chatSample 2
      = (pySplitNewline chatSample).drop
          ((pySplitNewline chatSample).length - (2 : Int).toNat)
  ∧ (get_recent_messages chatSample 2).length ≤ (2 : Int).toNat
  ∧ get_recent_messages chatSample 2 = [lineB, lineC] :=
  ⟨by decide, by decide,
   (get_recent_messages_spec chatSample 2 (by decide)).2.1 (by decide),
   (get_recent_messages_spec chatSample 2 (by decide)).2.2.1,
   by decide⟩

end Farang
